import Mathlib

/-!
Verification development for the sorting-cell digital twin.

Shallow embedding of the twin core (`twin_core/state_model.py`,
`twin_core/event_bus.py`, `twin_core/twin.py`): Python dataclasses become
Lean structures, the mutable `TwinState` becomes explicit state passing,
Python `float` timestamps become exact rationals `ℚ`, Python unbounded
`int` counters become `Nat`, and the insertion-ordered `dict` of parts
becomes an association list with append-on-create.
-/

namespace SortingCell

/-- `common/events.py` — `EventType`. -/
inductive EventType where
  | PART_ARRIVED
  | SENSOR_READ
  | ACTUATOR_TRIGGERED
  | PART_SORTED
  deriving DecidableEq, Repr

/-- Payload of an event (`event.data`).  Per the schema of §3 every event
carries a `part_id`; `outcome` is read by the core only on `PART_SORTED`
(`data["outcome"]` in the source); for other event types the core ignores it. -/
structure EventData where
  part_id : String
  outcome : String := ""
  deriving DecidableEq, Repr

/-- `common/events.py` — `Event`: type, timestamp (float → ℚ), payload. -/
structure Event where
  type : EventType
  timestamp : ℚ
  data : EventData
  deriving DecidableEq, Repr

/-- `state_model.py` — `CellState`. -/
inductive CellState where
  | IDLE
  | RUNNING
  | BLOCKED
  | ERROR
  deriving DecidableEq, Repr

/-- `state_model.py` — `PartStatus`. -/
inductive PartStatus where
  | CREATED
  | ON_CONVEYOR
  | AT_SENSOR
  | READY_TO_SORT
  | SORTED_OK
  | SORTED_NOK
  deriving DecidableEq, Repr

/-- `state_model.py` — `Part` dataclass. -/
structure Part where
  part_id : String
  status : PartStatus
  last_timestamp : ℚ
  deriving DecidableEq, Repr

/-- `state_model.py` — `TwinState` dataclass with its field defaults.
`parts: Dict[str, Part]` is modelled as an association list kept in
insertion order (Python dicts preserve insertion order). -/
structure TwinState where
  cell_state : CellState := CellState.IDLE
  parts : List (String × Part) := []
  total_processed : Nat := 0
  total_rejected : Nat := 0
  last_event_time : ℚ := 0
  system_start_time : ℚ := 0
  blocked_threshold : ℚ := 5
  error_flag : Bool := false
  deriving DecidableEq, Repr

/-- Key lookup in the parts dict (`part_id in self.parts` /
`self.parts[part_id]`): first entry whose key equals the query. -/
def dict_lookup : List (String × Part) → String → Option Part
  | [], _ => none
  | kv :: tl, q => if kv.1 = q then some kv.2 else dict_lookup tl q

namespace TwinState

/-- `TwinState._get_or_create_part`: if `part_id` is absent, insert a fresh
`Part` with status `CREATED`; return the (existing or fresh) part together
with the updated state. -/
def get_or_create_part (s : TwinState) (part_id : String) (timestamp : ℚ) :
    Part × TwinState :=
  match dict_lookup s.parts part_id with
  | some p => (p, s)
  | none =>
      let p : Part := { part_id := part_id, status := PartStatus.CREATED,
                        last_timestamp := timestamp }
      (p, { s with parts := s.parts ++ [(part_id, p)] })

/-- `TwinState.validate_sequence`: the fixed `valid_flow` transition table. -/
def validate_sequence (part : Part) (event_type : EventType) : Bool :=
  let valid_flow : PartStatus → List EventType := fun st =>
    match st with
    | PartStatus.CREATED => [EventType.PART_ARRIVED]
    | PartStatus.ON_CONVEYOR => [EventType.SENSOR_READ]
    | PartStatus.AT_SENSOR => [EventType.ACTUATOR_TRIGGERED]
    | PartStatus.READY_TO_SORT => [EventType.PART_SORTED]
    | PartStatus.SORTED_OK => []
    | PartStatus.SORTED_NOK => []
  (valid_flow part.status).contains event_type

/-- `TwinState.check_blocked`: inactivity detection.  The logging branch of
the source has no state effect and is omitted. -/
def check_blocked (s : TwinState) (current_time : ℚ) : TwinState :=
  if s.last_event_time = 0 then s
  else if current_time - s.last_event_time > s.blocked_threshold then
    { s with cell_state := CellState.BLOCKED }
  else s

/-- In-place mutation `part.status = st; part.last_timestamp = t` of the part
stored under `part_id` in the parts dict. -/
def set_part (s : TwinState) (part_id : String) (st : PartStatus) (t : ℚ) :
    TwinState :=
  { s with parts := s.parts.map fun kv =>
      if kv.1 = part_id then
        (kv.1, { kv.2 with status := st, last_timestamp := t })
      else kv }

/-- `TwinState.handle_event`, translated clause for clause:
record `last_event_time`; first event flips IDLE→RUNNING and records
`system_start_time`; get-or-create the part; validate the sequence and on
violation set ERROR + `error_flag` and return; otherwise apply the
transition (with counter updates on `PART_SORTED`) and run `check_blocked`
at the event's own timestamp. -/
def handle_event (s : TwinState) (event : Event) : TwinState :=
  let t := event.timestamp
  let s1 := { s with last_event_time := t }
  let s2 :=
    if s1.cell_state = CellState.IDLE then
      { s1 with cell_state := CellState.RUNNING, system_start_time := t }
    else s1
  let pid := event.data.part_id
  let pc := s2.get_or_create_part pid t
  let part := pc.1
  let s3 := pc.2
  if ¬ validate_sequence part event.type then
    { s3 with cell_state := CellState.ERROR, error_flag := true }
  else
    let s4 :=
      match event.type with
      | EventType.PART_ARRIVED => s3.set_part pid PartStatus.ON_CONVEYOR t
      | EventType.SENSOR_READ => s3.set_part pid PartStatus.AT_SENSOR t
      | EventType.ACTUATOR_TRIGGERED =>
          s3.set_part pid PartStatus.READY_TO_SORT t
      | EventType.PART_SORTED =>
          if event.data.outcome = "ok" then
            { s3.set_part pid PartStatus.SORTED_OK t with
              total_processed := s3.total_processed + 1 }
          else
            { s3.set_part pid PartStatus.SORTED_NOK t with
              total_processed := s3.total_processed + 1,
              total_rejected := s3.total_rejected + 1 }
    s4.check_blocked t

/-- Handling a whole list of events in order. -/
def handle_events (s : TwinState) (events : List Event) : TwinState :=
  events.foldl handle_event s

/-- Aggregate snapshot shape (`TwinState.snapshot`). -/
structure Snapshot where
  cell_state : CellState
  total_processed : Nat
  total_rejected : Nat
  parts_in_system : Nat
  error : Bool
  deriving DecidableEq, Repr

/-- `TwinState.snapshot`. -/
def snapshot (s : TwinState) : Snapshot :=
  { cell_state := s.cell_state
    total_processed := s.total_processed
    total_rejected := s.total_rejected
    parts_in_system := s.parts.length
    error := s.error_flag }

/-- KPI record returned by `TwinState.metrics_snapshot`. -/
structure Metrics where
  total_processed : Nat
  total_rejected : Nat
  reject_rate : ℚ
  throughput : ℚ
  observation_window : ℚ
  deriving DecidableEq, Repr

/-- `TwinState.metrics_snapshot`: observation window between first and last
event, throughput and reject rate with divide-by-zero guards. -/
def metrics_snapshot (s : TwinState) : Metrics :=
  let observation_window : ℚ :=
    if s.system_start_time = 0 ∨ s.last_event_time ≤ s.system_start_time then 0
    else s.last_event_time - s.system_start_time
  let throughput : ℚ :=
    if observation_window > 0 then (s.total_processed : ℚ) / observation_window
    else 0
  let reject_rate : ℚ :=
    if s.total_processed > 0 then (s.total_rejected : ℚ) / (s.total_processed : ℚ)
    else 0
  { total_processed := s.total_processed
    total_rejected := s.total_rejected
    reject_rate := reject_rate
    throughput := throughput
    observation_window := observation_window }

/-- Whether `handle_event` accepts `e` in state `s`: the sequence validation
performed inside `handle_event` against the (looked-up or freshly created)
part, before any transition is applied. -/
def accepts (s : TwinState) (e : Event) : Bool :=
  validate_sequence (s.get_or_create_part e.data.part_id e.timestamp).1 e.type

/-- A trace is accepted when every event of it passes sequence validation in
the state reached by handling the events before it (no event is rejected).
This is the canonical per-part order of the spec: `validate_sequence` is
exactly the PART_ARRIVED → SENSOR_READ → ACTUATOR_TRIGGERED → PART_SORTED
table. -/
def accepted_trace (s : TwinState) : List Event → Bool
  | [] => true
  | e :: es => s.accepts e && accepted_trace (s.handle_event e) es

/-- Whether at least one event of the trace is rejected by sequence
validation when the trace is handled from `s`. -/
def any_rejected (s : TwinState) : List Event → Bool
  | [] => false
  | e :: es => !s.accepts e || any_rejected (s.handle_event e) es

/-- Schema well-formedness of §3 for the payload key read by the core:
a `PART_SORTED` event carries `outcome ∈ {ok, nok}`. -/
def well_formed (e : Event) : Bool :=
  e.type ≠ EventType.PART_SORTED ||
    (e.data.outcome = "ok" || e.data.outcome = "nok")

/-- Number of `PART_SORTED` events in a trace. -/
def count_sorted (es : List Event) : Nat :=
  (es.filter fun e => e.type = EventType.PART_SORTED).length

/-- Number of `PART_SORTED` events with `outcome = nok` in a trace. -/
def count_nok (es : List Event) : Nat :=
  (es.filter fun e =>
    e.type = EventType.PART_SORTED ∧ e.data.outcome = "nok").length

end TwinState

namespace EventBus

/-- `EventBus._dispatch`: the `for callback in self._subscribers` loop,
`await`-ing each callback before moving to the next.  `α` stands for the
registered callbacks; the result is the list of invocations `(callback,
event)` in execution order. -/
def dispatch {α : Type} (subscribers : List α) (event : Event) :
    List (α × Event) :=
  match subscribers with
  | [] => []
  | callback :: rest => (callback, event) :: dispatch rest event

/-- `EventBus.run`: the `while True` loop dequeuing one event at a time from
the FIFO queue and dispatching it, modelled on the finite queue contents
`queue` (publish order).  The result is the full invocation trace in
execution order; an invocation is appended only after every invocation of
earlier events, so each callback completes before the next is invoked. -/
def run {α : Type} (subscribers : List α) (queue : List Event) :
    List (α × Event) :=
  match queue with
  | [] => []
  | event :: rest => dispatch subscribers event ++ run subscribers rest

/-- Sequential state semantics of the same loops: each callback is an
`Event`-driven state transformer, run to completion before the next one
starts. -/
def run_state {σ : Type} (subscribers : List (Event → σ → σ))
    (queue : List Event) (s : σ) : σ :=
  queue.foldl (fun acc event => subscribers.foldl (fun a f => f event a) acc) s

end EventBus

/-- `twin_core/twin.py` — the `DigitalTwin` façade.  The bus is represented
by its registered-subscriber list (the only part of it construction
touches); `handler` marks the twin's own `_handle_event` callback. -/
structure DigitalTwin where
  bus_subscribers : List String
  state : TwinState
  deriving DecidableEq, Repr

namespace DigitalTwin

/-- The tag under which the twin's `_handle_event` is registered. -/
def handler : String := "DigitalTwin._handle_event"

/-- `DigitalTwin.__init__(self, bus)`: the constructor as written takes only
the bus, builds `TwinState()` with all dataclass defaults (in particular
`blocked_threshold = 5.0`), and appends its handler to the bus's
subscribers.  It accepts no `blocked_threshold` argument. -/
def init (bus_subscribers : List String) : DigitalTwin :=
  { bus_subscribers := bus_subscribers ++ [handler]
    state := {} }

end DigitalTwin

/-! ### Characterization lemmas for the state machine -/


lemma dict_lookup_append_left {l1 l2 : List (String × Part)} {q : String}
    {p : Part} (h : dict_lookup l1 q = some p) :
    dict_lookup (l1 ++ l2) q = some p := by
  induction l1 with
  | nil => simp [dict_lookup] at h
  | cons kv tl ih =>
      by_cases hk : kv.1 = q <;> simp_all [dict_lookup]

lemma dict_lookup_append_right {l1 l2 : List (String × Part)} {q : String}
    (h : dict_lookup l1 q = none) :
    dict_lookup (l1 ++ l2) q = dict_lookup l2 q := by
  induction l1 with
  | nil => rfl
  | cons kv tl ih =>
      by_cases hk : kv.1 = q <;> simp_all [dict_lookup]

lemma dict_lookup_singleton (q : String) (p : Part) :
    dict_lookup [(q, p)] q = some p := by
  simp [dict_lookup]

lemma dict_lookup_map_update (l : List (String × Part)) (pid : String)
    (f : Part → Part) (q : String) :
    dict_lookup (l.map fun kv => if kv.1 = pid then (kv.1, f kv.2) else kv) q =
      (dict_lookup l q).map fun p => if q = pid then f p else p := by
  induction l with
  | nil => rfl
  | cons kv tl ih =>
      by_cases hk : kv.1 = pid <;> by_cases hq : kv.1 = q <;>
        simp_all [dict_lookup]

namespace TwinState

lemma check_blocked_eq (s : TwinState) (t : ℚ) :
    s.check_blocked t =
      if s.last_event_time ≠ 0 ∧ t - s.last_event_time > s.blocked_threshold
      then { s with cell_state := CellState.BLOCKED } else s := by
  unfold check_blocked
  split_ifs with h1 h2 h3 h4 <;> simp_all

lemma handle_event_scalars (s : TwinState) (e : Event) :
    (s.handle_event e).blocked_threshold = s.blocked_threshold ∧
    (s.handle_event e).last_event_time = e.timestamp ∧
    (s.handle_event e).system_start_time =
      (if s.cell_state = CellState.IDLE then e.timestamp else s.system_start_time) := by
  obtain ⟨ty, ts, da⟩ := e
  by_cases hI : s.cell_state = CellState.IDLE <;>
  cases hL : dict_lookup s.parts da.part_id <;>
  cases ty <;>
  simp only [handle_event, get_or_create_part, set_part, hI, hL, check_blocked_eq,
    if_true, if_false, ite_true, ite_false] <;>
  split_ifs <;> simp_all

lemma handle_event_counters (s : TwinState) (e : Event) :
    (s.handle_event e).total_processed =
      s.total_processed +
        (if s.accepts e = true ∧ e.type = EventType.PART_SORTED then 1 else 0) ∧
    (s.handle_event e).total_rejected =
      s.total_rejected +
        (if s.accepts e = true ∧ e.type = EventType.PART_SORTED ∧
            ¬ e.data.outcome = "ok" then 1 else 0) := by
  obtain ⟨ty, ts, da⟩ := e
  by_cases hI : s.cell_state = CellState.IDLE <;>
  cases hL : dict_lookup s.parts da.part_id <;>
  cases ty <;>
  simp only [handle_event, accepts, get_or_create_part, set_part, hI, hL,
    check_blocked_eq, if_true, if_false, ite_true, ite_false] <;>
  split_ifs <;> simp_all

lemma handle_event_error_flag (s : TwinState) (e : Event) :
    (s.handle_event e).error_flag = (s.error_flag || ! s.accepts e) := by
  obtain ⟨ty, ts, da⟩ := e
  by_cases hI : s.cell_state = CellState.IDLE <;>
  cases hL : dict_lookup s.parts da.part_id <;>
  cases ty <;>
  simp only [handle_event, accepts, get_or_create_part, set_part, hI, hL,
    check_blocked_eq, if_true, if_false, ite_true, ite_false] <;>
  split_ifs <;> simp_all

lemma handle_event_cell_state (s : TwinState) (e : Event) :
    (s.handle_event e).cell_state =
      if s.accepts e = true then
        (if e.timestamp ≠ 0 ∧ 0 > s.blocked_threshold then CellState.BLOCKED
         else if s.cell_state = CellState.IDLE then CellState.RUNNING
         else s.cell_state)
      else CellState.ERROR := by
  obtain ⟨ty, ts, da⟩ := e
  by_cases hI : s.cell_state = CellState.IDLE <;>
  cases hL : dict_lookup s.parts da.part_id <;>
  cases ty <;>
  simp only [handle_event, accepts, get_or_create_part, set_part, hI, hL,
    check_blocked_eq, if_true, if_false, ite_true, ite_false] <;>
  split_ifs <;> simp_all

lemma handle_event_parts_of_rejected (s : TwinState) (e : Event)
    (h : s.accepts e = false) :
    (s.handle_event e).parts =
      ((s.get_or_create_part e.data.part_id e.timestamp).2).parts := by
  obtain ⟨ty, ts, da⟩ := e
  by_cases hI : s.cell_state = CellState.IDLE <;>
  cases hL : dict_lookup s.parts da.part_id <;>
  cases ty <;>
  simp only [accepts, get_or_create_part, hL] at h <;>
  simp only [handle_event, get_or_create_part, set_part, hI, hL,
    check_blocked_eq, if_true, if_false, ite_true, ite_false] <;>
  split_ifs <;> simp_all

lemma map_fst_update (l : List (String × Part)) (pid : String)
    (f : Part → Part) :
    (l.map fun kv => if kv.1 = pid then (kv.1, f kv.2) else kv).map Prod.fst =
      l.map Prod.fst := by
  induction l with
  | nil => rfl
  | cons kv tl ih => by_cases hk : kv.1 = pid <;> simp_all

lemma handle_event_parts_keys (s : TwinState) (e : Event) :
    (s.handle_event e).parts.map Prod.fst =
      ((s.get_or_create_part e.data.part_id e.timestamp).2).parts.map Prod.fst := by
  obtain ⟨ty, ts, da⟩ := e
  by_cases hI : s.cell_state = CellState.IDLE <;>
  cases hL : dict_lookup s.parts da.part_id <;>
  cases ty <;>
  simp only [handle_event, get_or_create_part, set_part, hI, hL,
    check_blocked_eq, if_true, if_false, ite_true, ite_false] <;>
  split_ifs <;> simp_all [map_fst_update] <;>
  (intro a b hm; split_ifs <;> simp_all)

lemma dict_lookup_some_iff (l : List (String × Part)) (q : String) :
    (∃ p, dict_lookup l q = some p) ↔ q ∈ l.map Prod.fst := by
  induction l with
  | nil => simp [dict_lookup]
  | cons kv tl ih =>
      by_cases hk : kv.1 = q <;> simp_all [dict_lookup]
      exact fun h => absurd h.symm hk

end TwinState

/-! ### Trace-level lemmas -/


lemma dict_lookup_append_singleton_ne {l : List (String × Part)}
    {k q : String} {p : Part} (h : k ≠ q) :
    dict_lookup (l ++ [(k, p)]) q = dict_lookup l q := by
  cases hL : dict_lookup l q with
  | some p' => exact dict_lookup_append_left hL
  | none => rw [dict_lookup_append_right hL]; simp [dict_lookup, h]

namespace TwinState

lemma handle_event_blocked_threshold (s : TwinState) (e : Event) :
    (s.handle_event e).blocked_threshold = s.blocked_threshold :=
  (handle_event_scalars s e).1

lemma handle_event_ne_IDLE (s : TwinState) (e : Event) :
    (s.handle_event e).cell_state ≠ CellState.IDLE := by
  rw [handle_event_cell_state]
  split_ifs <;> simp_all

lemma handle_events_ne_IDLE (es : List Event) (s : TwinState)
    (h : s.cell_state ≠ CellState.IDLE) :
    (s.handle_events es).cell_state ≠ CellState.IDLE := by
  induction es generalizing s with
  | nil => exact h
  | cons e es ih => exact ih (s.handle_event e) (handle_event_ne_IDLE s e)

lemma handle_event_ne_BLOCKED (s : TwinState) (e : Event)
    (hth : 0 ≤ s.blocked_threshold) (h : s.cell_state ≠ CellState.BLOCKED) :
    (s.handle_event e).cell_state ≠ CellState.BLOCKED := by
  rw [handle_event_cell_state]
  split_ifs with h1 h2 <;> (try simp_all) <;> linarith [h2.2]

lemma handle_events_ne_BLOCKED (es : List Event) (s : TwinState)
    (hth : 0 ≤ s.blocked_threshold) (h : s.cell_state ≠ CellState.BLOCKED) :
    (s.handle_events es).cell_state ≠ CellState.BLOCKED := by
  induction es generalizing s with
  | nil => exact h
  | cons e es ih =>
      refine ih (s.handle_event e) ?_ (handle_event_ne_BLOCKED s e hth h)
      rw [handle_event_blocked_threshold]; exact hth

lemma handle_events_error_flag (es : List Event) (s : TwinState) :
    (s.handle_events es).error_flag = (s.error_flag || any_rejected s es) := by
  induction es generalizing s with
  | nil => simp [handle_events, any_rejected]
  | cons e es ih =>
      show ((s.handle_event e).handle_events es).error_flag = _
      rw [ih, handle_event_error_flag, any_rejected, Bool.or_assoc]

lemma handle_events_counters (es : List Event) (s : TwinState)
    (h1 : accepted_trace s es = true)
    (h2 : ∀ e ∈ es, well_formed e = true) :
    (s.handle_events es).total_processed = s.total_processed + count_sorted es ∧
    (s.handle_events es).total_rejected = s.total_rejected + count_nok es := by
  induction es generalizing s with
  | nil => simp [handle_events, count_sorted, count_nok]
  | cons e es ih =>
      rw [accepted_trace, Bool.and_eq_true] at h1
      have hwf : well_formed e = true := h2 e (List.mem_cons_self e es)
      have ih' := ih (s.handle_event e) h1.2 fun e' he' => h2 e' (List.mem_cons_of_mem e he')
      have hc := handle_event_counters s e
      have hcs : count_sorted (e :: es) =
          (if e.type = EventType.PART_SORTED then 1 else 0) + count_sorted es := by
        by_cases hty : e.type = EventType.PART_SORTED <;>
          simp [count_sorted, List.filter_cons, hty] <;> omega
      have hcn : count_nok (e :: es) =
          (if e.type = EventType.PART_SORTED ∧ e.data.outcome = "nok" then 1 else 0)
            + count_nok es := by
        by_cases hty : e.type = EventType.PART_SORTED <;>
          by_cases ho : e.data.outcome = "nok" <;>
          simp [count_nok, List.filter_cons, hty, ho] <;> omega
      show ((s.handle_event e).handle_events es).total_processed = _ ∧
        ((s.handle_event e).handle_events es).total_rejected = _
      rw [ih'.1, ih'.2, hc.1, hc.2, hcs, hcn]
      constructor
      · split_ifs <;> (try simp_all [well_formed]) <;> omega
      · split_ifs <;> (try simp_all [well_formed]) <;> omega

lemma goc_parts_cases (s : TwinState) (pid : String) (t : ℚ) :
    ((s.get_or_create_part pid t).2).parts = s.parts ∨
      ((dict_lookup s.parts pid = none) ∧
        (s.get_or_create_part pid t).2.parts =
          s.parts ++ [(pid, { part_id := pid, status := PartStatus.CREATED,
                              last_timestamp := t })]) := by
  cases hL : dict_lookup s.parts pid <;> simp [get_or_create_part, hL]

lemma handle_event_lookup_isSome (s : TwinState) (e : Event) (q : String)
    (h : ∃ p, dict_lookup s.parts q = some p) :
    ∃ p', dict_lookup (s.handle_event e).parts q = some p' := by
  rw [dict_lookup_some_iff] at h ⊢
  have hk := handle_event_parts_keys s e
  rw [hk]
  rcases goc_parts_cases s e.data.part_id e.timestamp with hg | hg
  · rw [hg]; exact h
  · rw [hg.2]; simp only [List.map_append]; exact List.mem_append_left _ h

lemma handle_events_lookup_isSome (es : List Event) (s : TwinState) (q : String)
    (h : ∃ p, dict_lookup s.parts q = some p) :
    ∃ p', dict_lookup (s.handle_events es).parts q = some p' := by
  induction es generalizing s with
  | nil => exact h
  | cons e es ih => exact ih (s.handle_event e) (handle_event_lookup_isSome s e q h)
end TwinState


/-! ### Concrete sample events used by witnesses and counterexamples -/

/-- A `PART_ARRIVED` event for part P1 (timestamp 0, so that concrete
evaluation never needs rational subtraction inside `check_blocked`). -/
def evArrived : Event :=
  { type := EventType.PART_ARRIVED, timestamp := 0, data := { part_id := "P1" } }

/-- A `SENSOR_READ` event for part P1. -/
def evSensor : Event :=
  { type := EventType.SENSOR_READ, timestamp := 0, data := { part_id := "P1" } }

/-- An `ACTUATOR_TRIGGERED` event for part P1. -/
def evActuator : Event :=
  { type := EventType.ACTUATOR_TRIGGERED, timestamp := 0,
    data := { part_id := "P1" } }

/-- A `PART_SORTED` event with `outcome = nok` for part P1. -/
def evSortedNok : Event :=
  { type := EventType.PART_SORTED, timestamp := 0,
    data := { part_id := "P1", outcome := "nok" } }

/-- A `SENSOR_READ` event for part P2 at t = 1, as the first event P2 ever
sees (a sequence violation, cf. §8 of the spec). -/
def evSensorFirst : Event :=
  { type := EventType.SENSOR_READ, timestamp := 1, data := { part_id := "P2" } }

open TwinState

/-- C1: an event whose type is not accepted from the target part's current
status makes `handle_event` set `cell_state = ERROR` and `error_flag = true`,
leave both counters unchanged, leave the part at its status as of validation
(the pre-existing part untouched, all other parts untouched), and processing
of subsequent events simply continues with the resulting state. -/
theorem sequence_violation_sets_error_and_drops_event
    (s : TwinState) (e : Event) (h : s.accepts e = false) :
    (s.handle_event e).cell_state = CellState.ERROR ∧
    (s.handle_event e).error_flag = true ∧
    (s.handle_event e).total_processed = s.total_processed ∧
    (s.handle_event e).total_rejected = s.total_rejected ∧
    dict_lookup (s.handle_event e).parts e.data.part_id =
      some (s.get_or_create_part e.data.part_id e.timestamp).1 ∧
    (∀ p, dict_lookup s.parts e.data.part_id = some p →
      dict_lookup (s.handle_event e).parts e.data.part_id = some p) ∧
    (∀ q, q ≠ e.data.part_id →
      dict_lookup (s.handle_event e).parts q = dict_lookup s.parts q) ∧
    (∀ es, s.handle_events (e :: es) = (s.handle_event e).handle_events es) := by
  have hparts := handle_event_parts_of_rejected s e h
  refine ⟨?_, ?_, ?_, ?_, ?_, ?_, ?_, ?_⟩
  · rw [handle_event_cell_state, h]; simp
  · rw [handle_event_error_flag, h]; simp
  · rw [(handle_event_counters s e).1, h]; simp
  · rw [(handle_event_counters s e).2, h]; simp
  · rw [hparts]
    cases hL : dict_lookup s.parts e.data.part_id with
    | some p => simp [get_or_create_part, hL]
    | none =>
        simp only [get_or_create_part, hL]
        rw [dict_lookup_append_right hL]
        simp [dict_lookup]
  · intro p hp
    rw [hparts]
    simp [get_or_create_part, hp]
  · intro q hq
    rw [hparts]
    cases hL : dict_lookup s.parts e.data.part_id with
    | some p => simp [get_or_create_part, hL]
    | none =>
        simp only [get_or_create_part, hL]
        exact dict_lookup_append_singleton_ne (Ne.symm hq)
  · intro es; rfl

/-- Witness for C1: `SENSOR_READ` as the very first event for part P2 is
rejected, sets ERROR, and leaves the counters at zero. -/
theorem sequence_violation_witness :
    ({} : TwinState).accepts evSensorFirst = false ∧
    (TwinState.handle_event {} evSensorFirst).cell_state = CellState.ERROR ∧
    (TwinState.handle_event {} evSensorFirst).total_processed = 0 ∧
    (TwinState.handle_event {} evSensorFirst).total_rejected = 0 :=
  ⟨by decide,
   (sequence_violation_sets_error_and_drops_event {} evSensorFirst (by decide)).1,
   (sequence_violation_sets_error_and_drops_event {} evSensorFirst (by decide)).2.2.1,
   (sequence_violation_sets_error_and_drops_event {} evSensorFirst (by decide)).2.2.2.1⟩

/-- C2: over any trace in which every event passes sequence validation (the
canonical per-part order) and whose `PART_SORTED` payloads satisfy the §3
schema `outcome ∈ {ok, nok}`, `total_processed` ends up equal to the number
of `PART_SORTED` events and `total_rejected` to the number of `PART_SORTED`
events with `outcome = nok`. -/
theorem canonical_trace_counters (th : ℚ) (es : List Event)
    (h1 : TwinState.accepted_trace { blocked_threshold := th } es = true)
    (h2 : ∀ e ∈ es, TwinState.well_formed e = true) :
    (TwinState.handle_events { blocked_threshold := th } es).total_processed =
      TwinState.count_sorted es ∧
    (TwinState.handle_events { blocked_threshold := th } es).total_rejected =
      TwinState.count_nok es := by
  have h := handle_events_counters es { blocked_threshold := th } h1 h2
  simpa using h

/-- Witness for C2: the canonical four-event trace for P1 ending in
`outcome = nok` yields `total_processed = 1` and `total_rejected = 1`. -/
theorem canonical_trace_counters_witness :
    TwinState.accepted_trace {}
      [evArrived, evSensor, evActuator, evSortedNok] = true ∧
    (TwinState.handle_events {}
      [evArrived, evSensor, evActuator, evSortedNok]).total_processed = 1 ∧
    (TwinState.handle_events {}
      [evArrived, evSensor, evActuator, evSortedNok]).total_rejected = 1 :=
  ⟨by decide,
   ((canonical_trace_counters 5 [evArrived, evSensor, evActuator, evSortedNok]
      (by decide) (by decide)).1).trans (by decide),
   ((canonical_trace_counters 5 [evArrived, evSensor, evActuator, evSortedNok]
      (by decide) (by decide)).2).trans (by decide)⟩

/-- C3: with a non-negative `blocked_threshold`, no sequence of
`handle_event` calls ever drives `cell_state` to BLOCKED — the blocked check
runs at the event's own timestamp, against which `last_event_time` was just
set equal. -/
theorem no_blocked_with_nonneg_threshold (th : ℚ) (es : List Event)
    (h : 0 ≤ th) :
    (TwinState.handle_events { blocked_threshold := th } es).cell_state ≠
      CellState.BLOCKED := by
  exact handle_events_ne_BLOCKED es { blocked_threshold := th } h (by simp)

/-- Witness for C3 at threshold 5 with one arrival event. -/
theorem no_blocked_witness :
    (0 : ℚ) ≤ 5 ∧
    (TwinState.handle_events {} [evArrived]).cell_state ≠ CellState.BLOCKED :=
  ⟨by norm_num, no_blocked_with_nonneg_threshold 5 [evArrived] (by norm_num)⟩

/-- C5: starting from the freshly constructed state, `error_flag` is true
after a trace exactly when some event of the trace was rejected by sequence
validation, and once `error_flag` is true no sequence of later events ever
clears it. -/
theorem error_flag_iff_some_rejected (th : ℚ) (es : List Event) :
    ((TwinState.handle_events { blocked_threshold := th } es).error_flag = true ↔
      TwinState.any_rejected { blocked_threshold := th } es = true) ∧
    (∀ (s : TwinState) (tail : List Event), s.error_flag = true →
      (s.handle_events tail).error_flag = true) := by
  constructor
  · rw [handle_events_error_flag]; simp
  · intro s tail hs
    rw [handle_events_error_flag, hs]; simp

/-- Witness for C5: a rejected first event raises the flag, and a state with
the flag raised keeps it after further (here: zero) events. -/
theorem error_flag_iff_some_rejected_witness :
    ((TwinState.handle_events {} [evSensorFirst]).error_flag = true ↔
      TwinState.any_rejected {} [evSensorFirst] = true) ∧
    (TwinState.handle_events { error_flag := true } []).error_flag = true :=
  ⟨(error_flag_iff_some_rejected 5 [evSensorFirst]).1,
   (error_flag_iff_some_rejected 5 []).2 { error_flag := true } [] rfl⟩


open TwinState

/-- C4 (code bug): `DigitalTwin.__init__(self, bus)` does subscribe the
twin's handler to the given bus, but accepts no `blocked_threshold`
argument: the `TwinState` it builds always carries the dataclass default
`blocked_threshold = 5.0`, never a caller-supplied configured value
(`main.py` nevertheless calls
`DigitalTwin(bus, blocked_threshold=config.twin.blocked_threshold)`). -/
theorem digital_twin_init_ignores_configured_threshold
    (bus_subscribers : List String) :
    (DigitalTwin.init bus_subscribers).bus_subscribers =
      bus_subscribers ++ [DigitalTwin.handler] ∧
    (DigitalTwin.init bus_subscribers).state = ({} : TwinState) ∧
    (DigitalTwin.init bus_subscribers).state.blocked_threshold = 5 :=
  ⟨rfl, rfl, rfl⟩

/-- C6 (counterexample): handling the first event does NOT always move
`cell_state` to RUNNING — an invalid first event (`SENSOR_READ` for a fresh
part) ends with `cell_state = ERROR`. -/
theorem first_event_invalid_not_running :
    ({} : TwinState).cell_state = CellState.IDLE ∧
    (TwinState.handle_event {} evSensorFirst).cell_state ≠ CellState.RUNNING ∧
    (TwinState.handle_event {} evSensorFirst).cell_state = CellState.ERROR := by
  refine ⟨rfl, ?_, ?_⟩ <;> decide

/-- C6 (amended): `cell_state = IDLE` only before the first event; handling
the first event records `system_start_time` and moves `cell_state` out of
IDLE — to RUNNING when the event passes sequence validation (given a
non-negative `blocked_threshold`), to ERROR when it does not — and no later
`handle_event` call ever returns `cell_state` to IDLE. -/
theorem first_event_amended :
    (∀ (s : TwinState) (e : Event), s.cell_state = CellState.IDLE →
      (s.handle_event e).system_start_time = e.timestamp ∧
      (s.handle_event e).cell_state ≠ CellState.IDLE ∧
      (s.accepts e = true → 0 ≤ s.blocked_threshold →
        (s.handle_event e).cell_state = CellState.RUNNING) ∧
      (s.accepts e = false →
        (s.handle_event e).cell_state = CellState.ERROR)) ∧
    (∀ (s : TwinState) (es : List Event) (e : Event),
      (s.handle_events (e :: es)).cell_state ≠ CellState.IDLE) := by
  constructor
  · intro s e hIdle
    refine ⟨?_, handle_event_ne_IDLE s e, ?_, ?_⟩
    · rw [(handle_event_scalars s e).2.2, hIdle]; simp
    · intro ha hth
      have hb : ¬(e.timestamp ≠ 0 ∧ 0 > s.blocked_threshold) :=
        fun hb => absurd hth (not_le.mpr hb.2)
      rw [handle_event_cell_state]
      simp [ha, hIdle, hb]
    · intro ha
      rw [handle_event_cell_state, ha]
      simp
  · intro s es e
    exact handle_events_ne_IDLE es (s.handle_event e) (handle_event_ne_IDLE s e)

/-- Witness for the amended C6: the first (valid) arrival event records its
timestamp as `system_start_time` and leaves the cell RUNNING. -/
theorem first_event_amended_witness :
    (TwinState.handle_event {} evArrived).system_start_time =
      evArrived.timestamp ∧
    (TwinState.handle_event {} evArrived).cell_state = CellState.RUNNING :=
  ⟨(first_event_amended.1 {} evArrived rfl).1,
   (first_event_amended.1 {} evArrived rfl).2.2.1 (by decide) (by decide)⟩

/-- C7: from the freshly constructed state, `total_rejected ≤
total_processed` holds after any trace, and a single `handle_event` never
decreases either counter. -/
theorem counters_monotone_and_bounded (th : ℚ) (es : List Event) :
    (TwinState.handle_events { blocked_threshold := th } es).total_rejected ≤
      (TwinState.handle_events { blocked_threshold := th } es).total_processed ∧
    ∀ (s : TwinState) (e : Event),
      s.total_processed ≤ (s.handle_event e).total_processed ∧
      s.total_rejected ≤ (s.handle_event e).total_rejected := by
  constructor
  · have inv : ∀ (es' : List Event) (s : TwinState),
        s.total_rejected ≤ s.total_processed →
        (s.handle_events es').total_rejected ≤
          (s.handle_events es').total_processed := by
      intro es'
      induction es' with
      | nil => intro s hs; exact hs
      | cons e tl ih =>
          intro s hs
          refine ih (s.handle_event e) ?_
          have hc := handle_event_counters s e
          rw [hc.1, hc.2]
          split_ifs with h1 h2 <;> first
            | omega
            | (exact absurd ⟨h1.1, h1.2.1⟩ h2)
    exact inv es { blocked_threshold := th } (by simp)
  · intro s e
    have hc := handle_event_counters s e
    rw [hc.1, hc.2]
    exact ⟨Nat.le_add_right _ _, Nat.le_add_right _ _⟩

/-- C8: the bus dispatch loop produces exactly the invocation trace
"for each event in FIFO publish order, every subscriber in registration
order", each invocation sequentially completed before the next starts
(the trace is flat and ordered). -/
theorem bus_fifo_registration_order {α : Type} (subscribers : List α)
    (queue : List Event) :
    EventBus.run subscribers queue =
      queue.flatMap (fun e => subscribers.map fun c => (c, e)) ∧
    ∀ e : Event, EventBus.dispatch subscribers e =
      subscribers.map fun c => (c, e) := by
  have hd : ∀ (e : Event) (subs : List α),
      EventBus.dispatch subs e = subs.map fun c => (c, e) := by
    intro e subs
    induction subs with
    | nil => rfl
    | cons c rest ih => simp [EventBus.dispatch, ih]
  constructor
  · induction queue with
    | nil => rfl
    | cons e rest ih => simp [EventBus.run, hd, ih]
  · exact fun e => hd e subscribers

/-- C9: the derived metrics guard their divisions — with no processed part
both `reject_rate` and `throughput` are 0; with processed parts
`reject_rate` is the exact quotient; with a positive observation window
`throughput` is the exact quotient; a zero window yields throughput 0; and
the window itself is never negative. -/
theorem metrics_divide_guards (s : TwinState) :
    (s.total_processed = 0 →
      (s.metrics_snapshot).reject_rate = 0 ∧
      (s.metrics_snapshot).throughput = 0) ∧
    (0 < s.total_processed →
      (s.metrics_snapshot).reject_rate =
        (s.total_rejected : ℚ) / (s.total_processed : ℚ)) ∧
    (0 < (s.metrics_snapshot).observation_window →
      (s.metrics_snapshot).throughput =
        (s.total_processed : ℚ) / (s.metrics_snapshot).observation_window) ∧
    ((s.metrics_snapshot).observation_window = 0 →
      (s.metrics_snapshot).throughput = 0) ∧
    0 ≤ (s.metrics_snapshot).observation_window := by
  have m_ow : (s.metrics_snapshot).observation_window =
      if s.system_start_time = 0 ∨ s.last_event_time ≤ s.system_start_time
      then 0 else s.last_event_time - s.system_start_time := rfl
  have m_tp : (s.metrics_snapshot).throughput =
      if (s.metrics_snapshot).observation_window > 0
      then (s.total_processed : ℚ) / (s.metrics_snapshot).observation_window
      else 0 := rfl
  have m_rr : (s.metrics_snapshot).reject_rate =
      if s.total_processed > 0
      then (s.total_rejected : ℚ) / (s.total_processed : ℚ) else 0 := rfl
  refine ⟨?_, ?_, ?_, ?_, ?_⟩
  · intro h
    constructor
    · rw [m_rr, if_neg]; omega
    · rw [m_tp]; split_ifs with hw
      · rw [h]; simp
      · rfl
  · intro h; rw [m_rr, if_pos h]
  · intro h; rw [m_tp, if_pos h]
  · intro h; rw [m_tp, h]; simp
  · rw [m_ow]; split_ifs with hw
    · exact le_refl 0
    · push_neg at hw
      linarith [hw.2]

/-- Witness for C9 at the freshly constructed state: both KPIs are 0. -/
theorem metrics_divide_guards_witness :
    (({} : TwinState).metrics_snapshot).reject_rate = 0 ∧
    (({} : TwinState).metrics_snapshot).throughput = 0 :=
  (metrics_divide_guards {}).1 rfl

/-- C10: an event for an unseen `part_id` inserts a CREATED part before
validation, so even a rejected event permanently adds the part: it is in
the map with status CREATED, `snapshot.parts_in_system` grows by one, and
the part survives any sequence of later events. -/
theorem rejected_event_creates_part (s : TwinState) (e : Event)
    (h1 : dict_lookup s.parts e.data.part_id = none)
    (h2 : s.accepts e = false) :
    dict_lookup (s.handle_event e).parts e.data.part_id =
      some { part_id := e.data.part_id, status := PartStatus.CREATED,
             last_timestamp := e.timestamp } ∧
    ((s.handle_event e).snapshot).parts_in_system =
      s.snapshot.parts_in_system + 1 ∧
    ∀ es : List Event, ∃ p,
      dict_lookup ((s.handle_event e).handle_events es).parts
        e.data.part_id = some p := by
  have hparts := handle_event_parts_of_rejected s e h2
  have hg : (s.get_or_create_part e.data.part_id e.timestamp).2.parts =
      s.parts ++ [(e.data.part_id,
        { part_id := e.data.part_id, status := PartStatus.CREATED,
          last_timestamp := e.timestamp })] := by
    simp [get_or_create_part, h1]
  have hlook : dict_lookup (s.handle_event e).parts e.data.part_id =
      some { part_id := e.data.part_id, status := PartStatus.CREATED,
             last_timestamp := e.timestamp } := by
    rw [hparts, hg, dict_lookup_append_right h1]
    simp [dict_lookup]
  refine ⟨hlook, ?_, ?_⟩
  · simp [snapshot, hparts, hg]
  · intro es
    exact handle_events_lookup_isSome es (s.handle_event e) e.data.part_id
      ⟨_, hlook⟩

/-- Witness for C10: `SENSOR_READ` for unseen part P2 is rejected yet P2
appears in the map with status CREATED and is counted by the snapshot. -/
theorem rejected_event_creates_part_witness :
    dict_lookup (TwinState.handle_event {} evSensorFirst).parts "P2" =
      some { part_id := "P2", status := PartStatus.CREATED,
             last_timestamp := 1 } ∧
    ((TwinState.handle_event {} evSensorFirst).snapshot).parts_in_system = 1 :=
  ⟨(rejected_event_creates_part {} evSensorFirst rfl (by decide)).1,
   (rejected_event_creates_part {} evSensorFirst rfl (by decide)).2.1⟩

end SortingCell
